import Mathlib

/-!
Verification development for the Updatable library (`src/Updatable.h`).

The library keeps a process-wide registry of `Updatable` receivers.
A receiver registers itself in its constructor and deregisters itself in
its destructor.  Two static dispatch entry points notify every registered
receiver: `updateAllInstances()` (auto-timed from `millis()`, with a
first-call latch and a wraparound-safe `unsigned long` subtraction) and
`updateAllInstances(deltaTime)` (explicitly timed).  `setDebugMode`
broadcasts a per-receiver debug flag, readable through `debugMode()`.

The backing container `Vector.h` is not part of the sources at hand; its
operations (append at the end, remove-at-index shifting later elements
left by one, size) are modelled from the spec of `DynamicContainer`.

Modelling choices:
* receivers are identified by a `Nat` (standing for the object address);
* `unsigned long` is modelled by `Nat` values below `UL_MOD = 2 ^ 32`,
  with subtraction performed modulo `UL_MOD`;
* a dispatch call returns the list of notification events
  `(receiver, elapsed)` in the order the receivers' `update` methods are
  invoked; the default `update` mutates nothing, so the registry state
  returned alongside the events is the whole effect of a call.
-/

/-- Modulus of the Arduino `unsigned long` type (32-bit). -/
def UL_MOD : Nat := 4294967296

/-- Wraparound-safe subtraction on `unsigned long`: `a - b` computed
modulo `2 ^ 32`, exactly as C unsigned arithmetic does. -/
def ulSub (a b : Nat) : Nat := (a + UL_MOD - b % UL_MOD) % UL_MOD

/-- The process-wide static state of the `Updatable` class:
`registeredInstances`, `lastUpdate`, `firstCall`, together with the
per-receiver `debug` field stored as an association list keyed by
receiver identity. -/
structure RegistryState where
  registeredInstances : List Nat
  lastUpdate : Nat
  firstCall : Bool
  debugFlags : List (Nat × Bool)
deriving DecidableEq, Repr

namespace Updatable

/-- The state at process start: empty registry, `lastUpdate = 0`,
`firstCall = true`, no receiver objects alive. -/
def initState : RegistryState :=
  { registeredInstances := [], lastUpdate := 0, firstCall := true, debugFlags := [] }

/-- Write the `debug` field of receiver `id` (insert it when absent). -/
def setFlag : List (Nat × Bool) → Nat → Bool → List (Nat × Bool)
  | [], id, b => [(id, b)]
  | (k, v) :: rest, id, b =>
      if k = id then (id, b) :: rest else (k, v) :: setFlag rest id b

/-- Read the `debug` field of receiver `id`, `none` when no such
receiver object is alive. -/
def lookupFlag : List (Nat × Bool) → Nat → Option Bool
  | [], _ => none
  | (k, v) :: rest, id => if k = id then some v else lookupFlag rest id

/-- The constructor `Updatable::Updatable()`: sets `debug = false`, then
`registeredInstances.PushBack(this)` (append at the end; the append is
modelled from the spec of `DynamicContainer.append`). -/
def construct (s : RegistryState) (id : Nat) : RegistryState :=
  { s with debugFlags := setFlag s.debugFlags id false,
           registeredInstances := s.registeredInstances ++ [id] }

/-- The loop body of the destructor `Updatable::~Updatable()`: scan for
the first element equal to `this`, `Erase` it (remove at that index,
shifting later elements left — modelled from the spec of
`DynamicContainer.removeAt`) and `break`; leave the list unchanged when
no element matches. -/
def eraseInstance : List Nat → Nat → List Nat
  | [], _ => []
  | x :: xs, id => if x = id then xs else x :: eraseInstance xs id

/-- The destructor `Updatable::~Updatable()`: removes the first
registry entry equal to `this`. -/
def destruct (s : RegistryState) (id : Nat) : RegistryState :=
  { s with registeredInstances := eraseInstance s.registeredInstances id }

/-- `Updatable::updateAllInstances()` (auto-timed): reads `now`
(the `millis()` value supplied as the argument); on the first call
records the baseline and returns no events; otherwise computes
`delta = now - lastUpdate` in `unsigned long` arithmetic, stores
`lastUpdate = now`, and updates every registered instance in order. -/
def updateAllInstancesAuto (s : RegistryState) (now : Nat) :
    RegistryState × List (Nat × Nat) :=
  if s.firstCall then
    ({ s with firstCall := false, lastUpdate := now }, [])
  else
    let delta := ulSub now s.lastUpdate
    ({ s with lastUpdate := now },
     s.registeredInstances.map (fun r => (r, delta)))

/-- `Updatable::updateAllInstances(unsigned long deltaTime)`: updates
every registered instance, in order, with the given `deltaTime`; touches
no static state. -/
def updateAllInstancesTimed (s : RegistryState) (deltaTime : Nat) :
    RegistryState × List (Nat × Nat) :=
  (s, s.registeredInstances.map (fun r => (r, deltaTime)))

/-- `Updatable::setDebugMode(bool mode)`: calls `_setDebugMode(mode)` on
every registered instance in order. -/
def setDebugMode (s : RegistryState) (mode : Bool) : RegistryState :=
  { s with debugFlags :=
      s.registeredInstances.foldl (fun fl r => setFlag fl r mode) s.debugFlags }

/-- `Updatable::debugMode()`: reads the receiver's own `debug` field. -/
def debugMode (s : RegistryState) (id : Nat) : Option Bool :=
  lookupFlag s.debugFlags id

/-- How many times receiver `id` was notified in an event list. -/
def notifCount (evs : List (Nat × Nat)) (id : Nat) : Nat :=
  (evs.filter (fun e => e.1 == id)).length

/-- Total elapsed time accumulated by receiver `id` over an event list. -/
def notifTotal (evs : List (Nat × Nat)) (id : Nat) : Nat :=
  ((evs.filter (fun e => e.1 == id)).map (fun e => e.2)).sum

/-- One externally triggered operation on the registry. -/
inductive Op where
  | construct : Nat → Op
  | destruct : Nat → Op
  | dispatchAuto : Nat → Op
  | dispatchTimed : Nat → Op
  | setDebug : Bool → Op
deriving DecidableEq, Repr

/-- Apply one operation to the state (dispatch events discarded). -/
def applyOp (s : RegistryState) : Op → RegistryState
  | Op.construct id => construct s id
  | Op.destruct id => destruct s id
  | Op.dispatchAuto now => (updateAllInstancesAuto s now).1
  | Op.dispatchTimed dt => (updateAllInstancesTimed s dt).1
  | Op.setDebug mode => setDebugMode s mode

/-- A trace is valid when every construction uses a fresh identity:
in C++ an object being constructed cannot already be registered, since
the registry would then hold its address while it is still alive. -/
def validOps : RegistryState → List Op → Bool
  | _, [] => true
  | s, op :: ops =>
      (match op with
       | Op.construct id => decide (id ∉ s.registeredInstances)
       | _ => true) && validOps (applyOp s op) ops

/-- The state reached from process start by a trace of operations. -/
def run (ops : List Op) : RegistryState := ops.foldl applyOp initState

end Updatable

namespace Updatable

lemma ulSub_eq_of_le {a b : Nat} (hba : b ≤ a) (ha : a < UL_MOD) :
    ulSub a b = a - b := by
  simp only [ulSub, UL_MOD] at *
  omega

lemma ulSub_wrap {a b : Nat} (hab : a < b) (hb : b < UL_MOD) :
    ulSub a b = (UL_MOD - 1 - b) + a + 1 := by
  simp only [ulSub, UL_MOD] at *
  omega

lemma registeredInstances_auto (s : RegistryState) (now : Nat) :
    (updateAllInstancesAuto s now).1.registeredInstances = s.registeredInstances := by
  unfold updateAllInstancesAuto
  split <;> rfl

lemma debugFlags_auto (s : RegistryState) (now : Nat) :
    (updateAllInstancesAuto s now).1.debugFlags = s.debugFlags := by
  unfold updateAllInstancesAuto
  split <;> rfl

lemma eraseInstance_of_not_mem {l : List Nat} {id : Nat} (h : id ∉ l) :
    eraseInstance l id = l := by
  induction l with
  | nil => rfl
  | cons x xs ih =>
      simp only [List.mem_cons, not_or] at h
      simp only [eraseInstance]
      rw [if_neg (fun hx => h.1 hx.symm), ih h.2]

lemma eraseInstance_append {l1 l2 : List Nat} {id : Nat} (h : id ∉ l1) :
    eraseInstance (l1 ++ id :: l2) id = l1 ++ l2 := by
  induction l1 with
  | nil => simp [eraseInstance]
  | cons x xs ih =>
      simp only [List.mem_cons, not_or] at h
      simp only [List.cons_append, eraseInstance, List.append_eq]
      rw [if_neg (fun hx => h.1 hx.symm), ih h.2]

lemma eraseInstance_sublist (l : List Nat) (id : Nat) :
    (eraseInstance l id).Sublist l := by
  induction l with
  | nil => simp [eraseInstance]
  | cons x xs ih =>
      simp only [eraseInstance]
      split
      · exact List.Sublist.cons x (List.Sublist.refl xs)
      · exact List.Sublist.cons₂ x ih

lemma not_mem_eraseInstance {l : List Nat} {id : Nat} (h : l.Nodup) :
    id ∉ eraseInstance l id := by
  induction l with
  | nil => simp [eraseInstance]
  | cons x xs ih =>
      simp only [List.nodup_cons] at h
      simp only [eraseInstance]
      split
      · rename_i hx
        rw [← hx]
        exact h.1
      · rename_i hx
        simp only [List.mem_cons, not_or]
        exact ⟨fun he => hx he.symm, ih h.2⟩

lemma filter_events (l : List Nat) (E id : Nat) :
    (l.map fun r => (r, E)).filter (fun e => e.1 == id) =
      (l.filter (fun r => r == id)).map fun r => (r, E) := by
  induction l with
  | nil => rfl
  | cons x xs ih =>
      simp only [List.map_cons, List.filter_cons]
      by_cases hx : (x == id) = true
      · simp [hx, ih]
      · simp only [Bool.not_eq_true] at hx
        simp [hx, ih]

lemma sum_map_const (l : List Nat) (E : Nat) :
    (l.map fun _ => E).sum = l.length * E := by
  induction l with
  | nil => simp
  | cons x xs ih =>
      simp only [List.map_cons, List.sum_cons, List.length_cons, ih, Nat.succ_mul]
      omega

lemma notifCount_map (l : List Nat) (E id : Nat) :
    notifCount (l.map fun r => (r, E)) id = l.count id := by
  rw [notifCount, filter_events, List.length_map, List.count]
  rw [List.countP_eq_length_filter]

lemma notifTotal_map (l : List Nat) (E id : Nat) :
    notifTotal (l.map fun r => (r, E)) id = l.count id * E := by
  rw [notifTotal, filter_events, List.map_map]
  have hc : ((fun e : Nat × Nat => e.2) ∘ fun r : Nat => (r, E)) = fun _ => E := rfl
  rw [hc, sum_map_const, List.count, List.countP_eq_length_filter]

lemma lookupFlag_setFlag_self (fl : List (Nat × Bool)) (id : Nat) (b : Bool) :
    lookupFlag (setFlag fl id b) id = some b := by
  induction fl with
  | nil => simp [setFlag, lookupFlag]
  | cons p rest ih =>
      obtain ⟨k, v⟩ := p
      simp only [setFlag]
      split
      · simp [lookupFlag]
      · rename_i hk
        simp only [lookupFlag]
        rw [if_neg hk]
        exact ih

lemma lookupFlag_setFlag_other (fl : List (Nat × Bool)) {k id : Nat} (b : Bool)
    (h : k ≠ id) : lookupFlag (setFlag fl k b) id = lookupFlag fl id := by
  induction fl with
  | nil => simp [setFlag, lookupFlag, if_neg h]
  | cons p rest ih =>
      obtain ⟨k', v⟩ := p
      by_cases hk : k' = k
      · subst hk
        simp [setFlag, lookupFlag, h]
      · simp only [setFlag, if_neg hk, lookupFlag]
        split
        · rfl
        · exact ih

lemma lookupFlag_foldl_setFlag (l : List Nat) (fl : List (Nat × Bool))
    (b : Bool) (id : Nat) :
    lookupFlag (l.foldl (fun fl r => setFlag fl r b) fl) id =
      if id ∈ l then some b else lookupFlag fl id := by
  induction l generalizing fl with
  | nil => simp
  | cons x xs ih =>
      simp only [List.foldl_cons, List.mem_cons]
      rw [ih]
      by_cases hxs : id ∈ xs
      · simp [hxs]
      · by_cases hx : x = id
        · simp [hx, hxs, lookupFlag_setFlag_self]
        · have hx' : ¬ id = x := fun he => hx he.symm
          rw [lookupFlag_setFlag_other _ _ hx]
          simp [hxs, hx']

end Updatable

namespace Updatable

lemma nodup_construct {s : RegistryState} {id : Nat}
    (hid : id ∉ s.registeredInstances) (hnd : s.registeredInstances.Nodup) :
    (construct s id).registeredInstances.Nodup := by
  show (s.registeredInstances ++ [id]).Nodup
  rw [List.nodup_append]
  refine ⟨hnd, List.nodup_singleton id, ?_⟩
  intro a ha hm
  rw [List.mem_singleton] at hm
  subst hm
  exact hid ha

lemma nodup_run_aux (ops : List Op) (s : RegistryState)
    (hv : validOps s ops = true) (hnd : s.registeredInstances.Nodup) :
    (ops.foldl applyOp s).registeredInstances.Nodup := by
  induction ops generalizing s with
  | nil => simpa using hnd
  | cons op ops ih =>
      cases op with
      | construct id =>
          simp only [validOps, Bool.and_eq_true, decide_eq_true_eq] at hv
          exact ih _ hv.2 (nodup_construct hv.1 hnd)
      | destruct id =>
          simp only [validOps, Bool.true_and] at hv
          exact ih _ hv ((eraseInstance_sublist _ _).nodup hnd)
      | dispatchAuto now =>
          simp only [validOps, Bool.true_and] at hv
          refine ih _ hv ?_
          show ((updateAllInstancesAuto s now).1).registeredInstances.Nodup
          rw [registeredInstances_auto]
          exact hnd
      | dispatchTimed dt =>
          simp only [validOps, Bool.true_and] at hv
          exact ih _ hv hnd
      | setDebug mode =>
          simp only [validOps, Bool.true_and] at hv
          exact ih _ hv hnd

end Updatable

open Updatable

/-- A sample reachable state with two registered receivers `5` and `7`,
used to instantiate the universally quantified theorems below. -/
def sampleState : RegistryState := construct (construct initState 5) 7

/-- C1: for the auto-timed dispatch starting from a state whose first-call
latch is still set, the first invocation records the clock reading as the
baseline and notifies no receiver; the second invocation notifies each
registered receiver, and the elapsed value passed to every receiver equals
the difference between the second and the first clock readings. -/
theorem auto_first_baseline_second_elapsed (s : RegistryState)
    (hf : s.firstCall = true) (now1 now2 : Nat)
    (h12 : now1 ≤ now2) (h2 : now2 < UL_MOD) :
    (updateAllInstancesAuto s now1).2 = [] ∧
    (updateAllInstancesAuto s now1).1.lastUpdate = now1 ∧
    (updateAllInstancesAuto s now1).1.firstCall = false ∧
    (updateAllInstancesAuto (updateAllInstancesAuto s now1).1 now2).2 =
      s.registeredInstances.map (fun r => (r, now2 - now1)) := by
  refine ⟨?_, ?_, ?_, ?_⟩ <;>
    simp [updateAllInstancesAuto, hf, ulSub_eq_of_le h12 h2]

/-- C1 witness: instantiation at the initial two-receiver state with
clock readings 3 and 10. -/
theorem auto_first_baseline_second_elapsed_witness :
    sampleState.firstCall = true ∧ (3 : Nat) ≤ 10 ∧ (10 : Nat) < UL_MOD ∧
    ((updateAllInstancesAuto sampleState 3).2 = [] ∧
     (updateAllInstancesAuto sampleState 3).1.lastUpdate = 3 ∧
     (updateAllInstancesAuto sampleState 3).1.firstCall = false ∧
     (updateAllInstancesAuto (updateAllInstancesAuto sampleState 3).1 10).2 =
       sampleState.registeredInstances.map (fun r => (r, 10 - 3))) :=
  ⟨by decide, by decide, by decide,
   auto_first_baseline_second_elapsed sampleState (by decide) 3 10
     (by decide) (by decide)⟩

/-- C2: after the first call, the auto-timed dispatch passes every
registered receiver the elapsed value `(current - lastUpdate) mod 2^32`
(unsigned wraparound-safe subtraction in the clock width), and when the
clock has wrapped (`current < lastUpdate`) that value equals
`(maximum - lastUpdate) + current + 1` with `maximum = 2^32 - 1`. -/
theorem auto_elapsed_wraparound (s : RegistryState)
    (hf : s.firstCall = false) (hl : s.lastUpdate < UL_MOD)
    (current : Nat) (hc : current < UL_MOD) :
    (updateAllInstancesAuto s current).2 =
      s.registeredInstances.map
        (fun r => (r, (current + UL_MOD - s.lastUpdate) % UL_MOD)) ∧
    (current < s.lastUpdate →
      (current + UL_MOD - s.lastUpdate) % UL_MOD =
        ((UL_MOD - 1) - s.lastUpdate) + current + 1) := by
  constructor
  · simp only [updateAllInstancesAuto, hf, Bool.false_eq_true, if_false, ulSub]
    rw [Nat.mod_eq_of_lt hl]
  · intro hlt
    simp only [UL_MOD] at *
    omega

/-- C2 witness: a wrapped clock going from `2^32 - 10` to `20`. -/
theorem auto_elapsed_wraparound_witness :
    (updateAllInstancesAuto sampleState 3).1.firstCall = false ∧
    (updateAllInstancesAuto sampleState 3).1.lastUpdate < UL_MOD ∧
    (20 : Nat) < UL_MOD ∧
    ((updateAllInstancesAuto (updateAllInstancesAuto sampleState 3).1 20).2 =
       (updateAllInstancesAuto sampleState 3).1.registeredInstances.map
         (fun r => (r,
           (20 + UL_MOD - (updateAllInstancesAuto sampleState 3).1.lastUpdate)
             % UL_MOD)) ∧
     (20 < (updateAllInstancesAuto sampleState 3).1.lastUpdate →
       (20 + UL_MOD - (updateAllInstancesAuto sampleState 3).1.lastUpdate)
           % UL_MOD =
         ((UL_MOD - 1) - (updateAllInstancesAuto sampleState 3).1.lastUpdate)
           + 20 + 1)) :=
  ⟨by decide, by decide, by decide,
   auto_elapsed_wraparound (updateAllInstancesAuto sampleState 3).1
     (by decide) (by decide) 20 (by decide)⟩

/-- C3: one explicitly-timed dispatch with elapsed `E` (including `E = 0`)
produces exactly the event list that notifies each registered receiver
once with `E`, in strict registration order; consequently, for a
duplicate-free registry, each registered receiver's notification count
rises by exactly 1 and its accumulated total by exactly `E`. -/
theorem timed_notifies_each_once (s : RegistryState) (E : Nat)
    (hnd : s.registeredInstances.Nodup) :
    (updateAllInstancesTimed s E).2 =
      s.registeredInstances.map (fun r => (r, E)) ∧
    ∀ id ∈ s.registeredInstances,
      notifCount (updateAllInstancesTimed s E).2 id = 1 ∧
      notifTotal (updateAllInstancesTimed s E).2 id = E := by
  refine ⟨rfl, fun id hid => ?_⟩
  have hc : s.registeredInstances.count id = 1 :=
    List.count_eq_one_of_mem hnd hid
  constructor
  · show notifCount (s.registeredInstances.map fun r => (r, E)) id = 1
    rw [notifCount_map, hc]
  · show notifTotal (s.registeredInstances.map fun r => (r, E)) id = E
    rw [notifTotal_map, hc, one_mul]

/-- C3 witness: two receivers, explicit dispatch with elapsed 50 and with
elapsed 0; receiver 5 is notified exactly once each time. -/
theorem timed_notifies_each_once_witness :
    sampleState.registeredInstances.Nodup ∧
    (updateAllInstancesTimed sampleState 50).2 =
      sampleState.registeredInstances.map (fun r => (r, 50)) ∧
    notifCount (updateAllInstancesTimed sampleState 50).2 5 = 1 ∧
    notifTotal (updateAllInstancesTimed sampleState 50).2 5 = 50 ∧
    notifCount (updateAllInstancesTimed sampleState 0).2 5 = 1 ∧
    notifTotal (updateAllInstancesTimed sampleState 0).2 5 = 0 :=
  ⟨by decide,
   (timed_notifies_each_once sampleState 50 (by decide)).1,
   ((timed_notifies_each_once sampleState 50 (by decide)).2 5 (by decide)).1,
   ((timed_notifies_each_once sampleState 50 (by decide)).2 5 (by decide)).2,
   ((timed_notifies_each_once sampleState 0 (by decide)).2 5 (by decide)).1,
   ((timed_notifies_each_once sampleState 0 (by decide)).2 5 (by decide)).2⟩

/-- C4: the explicitly-timed dispatch never modifies the automatic
dispatch cursor `lastUpdate` or the first-call latch `firstCall`. -/
theorem timed_preserves_cursor_and_latch (s : RegistryState)
    (deltaTime : Nat) :
    (updateAllInstancesTimed s deltaTime).1.lastUpdate = s.lastUpdate ∧
    (updateAllInstancesTimed s deltaTime).1.firstCall = s.firstCall :=
  ⟨rfl, rfl⟩

/-- C5: in every state reachable by a valid trace of operations from the
initial empty registry, each receiver reference appears at most once in
the registered sequence, and running any receiver's destructor from such
a state leaves no reference to that receiver in the sequence. -/
theorem registry_nodup_and_destruct_removes (ops : List Op)
    (hv : validOps initState ops = true) :
    (run ops).registeredInstances.Nodup ∧
    ∀ id : Nat, id ∉ (destruct (run ops) id).registeredInstances := by
  have hnd : (run ops).registeredInstances.Nodup :=
    nodup_run_aux ops initState hv (by simp [initState])
  exact ⟨hnd, fun id => not_mem_eraseInstance hnd⟩

/-- C5 witness: a trace that constructs 1 and 2, destroys 1, and
reconstructs 1; the resulting registry is duplicate-free and destroying
receiver 2 removes every reference to it. -/
theorem registry_nodup_and_destruct_removes_witness :
    validOps initState
      [Op.construct 1, Op.construct 2, Op.destruct 1, Op.construct 1]
      = true ∧
    (run [Op.construct 1, Op.construct 2, Op.destruct 1,
          Op.construct 1]).registeredInstances.Nodup ∧
    2 ∉ (destruct
          (run [Op.construct 1, Op.construct 2, Op.destruct 1,
                Op.construct 1]) 2).registeredInstances :=
  ⟨by decide,
   (registry_nodup_and_destruct_removes _ (by decide)).1,
   (registry_nodup_and_destruct_removes _ (by decide)).2 2⟩

/-- C6: the destructor's deregistration scan removes the first reference
equal to the given receiver identity; when no reference is equal (for
example a double deregistration) it leaves the whole registry state
unchanged. -/
theorem destruct_removes_first_or_noop (s : RegistryState) (id : Nat)
    (l1 l2 : List Nat) :
    (s.registeredInstances = l1 ++ id :: l2 → id ∉ l1 →
      (destruct s id).registeredInstances = l1 ++ l2) ∧
    (id ∉ s.registeredInstances → destruct s id = s) := by
  constructor
  · intro hsplit hnl
    show eraseInstance s.registeredInstances id = l1 ++ l2
    rw [hsplit]
    exact eraseInstance_append hnl
  · intro hnm
    show { s with registeredInstances :=
             eraseInstance s.registeredInstances id } = s
    rw [eraseInstance_of_not_mem hnm]

/-- C6 witness: destroying receiver 7 removes it from `[5, 7]`; destroying
the unknown receiver 9 leaves the state unchanged. -/
theorem destruct_removes_first_or_noop_witness :
    sampleState.registeredInstances = [5] ++ 7 :: [] ∧
    (7 : Nat) ∉ [(5 : Nat)] ∧
    (destruct sampleState 7).registeredInstances = [5] ++ [] ∧
    (9 : Nat) ∉ sampleState.registeredInstances ∧
    destruct sampleState 9 = sampleState :=
  ⟨by decide, by decide,
   (destruct_removes_first_or_noop sampleState 7 [5] []).1
     (by decide) (by decide),
   by decide,
   (destruct_removes_first_or_noop sampleState 9 [] []).2 (by decide)⟩

/-- C7 counterexample: with an empty registry, the auto-timed dispatch
notifies no one but does NOT leave all state unchanged — on the very
first call with clock reading 1 it clears the first-call latch and
records the baseline, so the state after the call differs from the state
before it. -/
theorem empty_dispatch_counterexample :
    initState.registeredInstances = [] ∧
    (updateAllInstancesAuto initState 1).2 = [] ∧
    (updateAllInstancesAuto initState 1).1 ≠ initState := by
  decide

/-- C7 (amended): dispatch over an empty registry notifies no one; the
explicitly-timed entry point leaves all state unchanged, while the
auto-timed entry point keeps the registered sequence and the debug flags
unchanged but still updates the first-call latch and the time cursor
exactly as on any other call. -/
theorem empty_dispatch_no_notifications (s : RegistryState)
    (h : s.registeredInstances = []) (now deltaTime : Nat) :
    (updateAllInstancesAuto s now).2 = [] ∧
    (updateAllInstancesAuto s now).1.registeredInstances = [] ∧
    (updateAllInstancesAuto s now).1.debugFlags = s.debugFlags ∧
    updateAllInstancesTimed s deltaTime = (s, []) := by
  refine ⟨?_, ?_, debugFlags_auto s now, ?_⟩
  · unfold updateAllInstancesAuto
    split
    · rfl
    · simp [h]
  · rw [registeredInstances_auto, h]
  · simp [updateAllInstancesTimed, h]

/-- C7 amended witness: the initial state has an empty registry and both
entry points notify no one there. -/
theorem empty_dispatch_no_notifications_witness :
    initState.registeredInstances = [] ∧
    ((updateAllInstancesAuto initState 5).2 = [] ∧
     (updateAllInstancesAuto initState 5).1.registeredInstances = [] ∧
     (updateAllInstancesAuto initState 5).1.debugFlags =
       initState.debugFlags ∧
     updateAllInstancesTimed initState 3 = (initState, [])) :=
  ⟨by decide, empty_dispatch_no_notifications initState (by decide) 5 3⟩

/-- C8: after exactly one of the registered receivers is destroyed
outside any dispatch, a subsequent explicitly-timed dispatch notifies
exactly the remaining receivers, in their original relative order (the
elements after the removed one shifted left by one), and never the
destroyed receiver. -/
theorem dispatch_after_destruct (s : RegistryState) (id E : Nat)
    (l1 l2 : List Nat) (hnd : s.registeredInstances.Nodup)
    (hsplit : s.registeredInstances = l1 ++ id :: l2) :
    (destruct s id).registeredInstances = l1 ++ l2 ∧
    (updateAllInstancesTimed (destruct s id) E).2 =
      (l1 ++ l2).map (fun r => (r, E)) ∧
    notifCount (updateAllInstancesTimed (destruct s id) E).2 id = 0 := by
  rw [hsplit] at hnd
  rw [List.nodup_append] at hnd
  obtain ⟨h1, h2, hdisj⟩ := hnd
  have hid1 : id ∉ l1 := fun hm => (hdisj hm) (List.mem_cons_self id l2)
  have hid2 : id ∉ l2 := by
    rw [List.nodup_cons] at h2
    exact h2.1
  have herase : (destruct s id).registeredInstances = l1 ++ l2 := by
    show eraseInstance s.registeredInstances id = l1 ++ l2
    rw [hsplit]
    exact eraseInstance_append hid1
  refine ⟨herase, ?_, ?_⟩
  · show ((destruct s id).registeredInstances).map (fun r => (r, E)) =
      (l1 ++ l2).map (fun r => (r, E))
    rw [herase]
  · show notifCount
      (((destruct s id).registeredInstances).map fun r => (r, E)) id = 0
    rw [herase, notifCount_map, List.count_eq_zero]
    simp only [List.mem_append]
    exact fun hm => hm.elim hid1 hid2

/-- C8 witness: destroying receiver 5 out of `[5, 7]`; a dispatch with
elapsed 4 then notifies only receiver 7. -/
theorem dispatch_after_destruct_witness :
    sampleState.registeredInstances.Nodup ∧
    sampleState.registeredInstances = [] ++ 5 :: [7] ∧
    ((destruct sampleState 5).registeredInstances = [] ++ [7] ∧
     (updateAllInstancesTimed (destruct sampleState 5) 4).2 =
       ([] ++ [7]).map (fun r => (r, 4)) ∧
     notifCount (updateAllInstancesTimed (destruct sampleState 5) 4).2 5
       = 0) :=
  ⟨by decide, by decide,
   dispatch_after_destruct sampleState 5 4 [] [7] (by decide) (by decide)⟩

/-- C9: `setDebugMode(mode)` sets the debug flag of every registered
receiver to `mode` (independently readable through `debugMode`), a newly
constructed receiver's flag defaults to `false`, and a receiver
constructed after the `setDebugMode` call still has the default `false`
flag until `setDebugMode` is called again. -/
theorem setDebugMode_propagates (s : RegistryState) (mode : Bool)
    (id newId : Nat) (hid : id ∈ s.registeredInstances) :
    debugMode (setDebugMode s mode) id = some mode ∧
    debugMode (construct s newId) newId = some false ∧
    debugMode (construct (setDebugMode s mode) newId) newId = some false := by
  refine ⟨?_, ?_, ?_⟩
  · show lookupFlag
      (s.registeredInstances.foldl (fun fl r => setFlag fl r mode)
        s.debugFlags) id = some mode
    rw [lookupFlag_foldl_setFlag]
    simp [hid]
  · exact lookupFlag_setFlag_self _ _ _
  · exact lookupFlag_setFlag_self _ _ _

/-- C9 witness: broadcasting `true` over `[5, 7]` flips receiver 5's
flag to `true`; the receiver 9 constructed afterwards keeps `false`. -/
theorem setDebugMode_propagates_witness :
    5 ∈ sampleState.registeredInstances ∧
    (debugMode (setDebugMode sampleState true) 5 = some true ∧
     debugMode (construct sampleState 9) 9 = some false ∧
     debugMode (construct (setDebugMode sampleState true) 9) 9
       = some false) :=
  ⟨by decide, setDebugMode_propagates sampleState true 5 9 (by decide)⟩

/-- C10: both dispatch entry points leave the registered sequence and
every receiver's debug flag unchanged (the embedded `update` bodies
mutate nothing); the auto-timed dispatch can change only the time cursor
and the first-call latch, and the explicitly-timed dispatch returns the
state completely unchanged. -/
theorem dispatch_frame (s : RegistryState) (now deltaTime : Nat) :
    (updateAllInstancesAuto s now).1.registeredInstances =
      s.registeredInstances ∧
    (updateAllInstancesAuto s now).1.debugFlags = s.debugFlags ∧
    (updateAllInstancesTimed s deltaTime).1 = s :=
  ⟨registeredInstances_auto s now, debugFlags_auto s now, rfl⟩
